import Mathlib

/-!
Verification of the AiiDA excerpt (espenfl/aiida_core): ORM entity-loading
utilities, the Materials Project database importer plugin, the COD importer
query-clause builders, and the archive migrate/inspect CLI behaviour.

Python values are shallowly embedded as the inductive `PyVal`; Python
exceptions as `PyErr`; fallible Python functions return `Except PyErr α`.
A keyword argument that may be omitted or passed as `None` is an
`Option PyVal` (Python's `x is None` check corresponds to `Option.none`);
`None` stored *inside* a dictionary is the value `PyVal.pyNone`.
-/

namespace Aiida

/-- The universe of Python values handled by the code under study.
Python 2 distinguishes byte strings (`strV`) from unicode strings
(`unicodeV`); `six.string_types` covers both.  `uuidV s` is a
`uuid.UUID` instance whose `str()` is `s`. -/
inductive PyVal where
  | intV (n : Int)
  | strV (s : String)
  | unicodeV (s : String)
  | floatV (q : Rat)
  | listV (xs : List PyVal)
  | dictV (xs : List (String × PyVal))
  | uuidV (s : String)
  | pyNone

/-- Python exceptions raised by the code under study. -/
inductive PyErr where
  | valueError (msg : String)
  | typeError (msg : String)
  | keyError (key : String)
  | attributeError (msg : String)
deriving DecidableEq

/-- `isinstance(v, int)`. -/
def PyVal.isInt : PyVal → Bool
  | .intV _ => true
  | _ => false

/-- `isinstance(v, str)` (Python 2 byte string only). -/
def PyVal.isStr : PyVal → Bool
  | .strV _ => true
  | _ => false

/-- `isinstance(v, six.string_types)`: byte string or unicode string. -/
def PyVal.isStringType : PyVal → Bool
  | .strV _ => true
  | .unicodeV _ => true
  | _ => false

/-- `isinstance(v, uuid.UUID)`. -/
def PyVal.isUuid : PyVal → Bool
  | .uuidV _ => true
  | _ => false

/-- `isinstance(v, dict)`. -/
def PyVal.isDict : PyVal → Bool
  | .dictV _ => true
  | _ => false

/-- `isinstance(v, float)`. -/
def PyVal.isFloat : PyVal → Bool
  | .floatV _ => true
  | _ => false

/-- Python truthiness (`bool(v)`).  `uuid.UUID` defines no `__bool__` or
`__len__`, so a UUID instance is always truthy. -/
def PyVal.truthy : PyVal → Bool
  | .intV n => n != 0
  | .strV s => s ≠ ""
  | .unicodeV s => s ≠ ""
  | .floatV q => q != 0
  | .listV xs => ¬ xs.isEmpty
  | .dictV xs => ¬ xs.isEmpty
  | .uuidV _ => true
  | .pyNone => false

/-- Python 2 `type(v)` rendering, used in error-message formatting. -/
def PyVal.pyType : PyVal → String
  | .intV _ => "<type 'int'>"
  | .strV _ => "<type 'str'>"
  | .unicodeV _ => "<type 'unicode'>"
  | .floatV _ => "<type 'float'>"
  | .listV _ => "<type 'list'>"
  | .dictV _ => "<type 'dict'>"
  | .uuidV _ => "<class 'uuid.UUID'>"
  | .pyNone => "<type 'NoneType'>"

/-- Python `str(v)` for the scalar values the claims exercise.  Container
rendering is abbreviated (no claim depends on it). -/
def PyVal.pyStr : PyVal → String
  | .intV n => toString n
  | .strV s => s
  | .unicodeV s => s
  | .floatV q => toString q
  | .listV _ => "[...]"
  | .dictV _ => "{...}"
  | .uuidV s => s
  | .pyNone => "None"

/-- Python `v == lit` for a string literal `lit` (unicode and byte strings
compare equal to each other in Python 2; no other value equals a string). -/
def PyVal.eqStr : PyVal → String → Bool
  | .strV s, t => s == t
  | .unicodeV s, t => s == t
  | _, _ => false

/-- The underlying integer of an `intV` (meaningful only when `isInt`). -/
def PyVal.asInt : PyVal → Int
  | .intV n => n
  | _ => 0

/-- The `IdentifierType` enum of `aiida.orm.utils.loaders`, as used by
`load_entity` to tag the identifier it forwards to the backend loader. -/
inductive IdentifierType where
  | ID
  | UUID
  | LABEL
deriving DecidableEq

/-- `aiida.orm.utils.load_entity` (src/aiida/orm/utils/__init__.py:21-80).
`valid_loader` models the `issubclass(entity_loader, OrmEntityLoader)`
check.  The function validates that exactly one of
`identifier`/`pk`/`uuid`/`label` was supplied, type-checks the one that
was, and forwards to `entity_loader.load_entity(identifier,
identifier_type, ...)`; the model returns that forwarded pair in `.ok`,
so an `.error` result means the backend loader was never consulted. -/
def load_entity (valid_loader : Bool) (identifier pk uuid label : Option PyVal) :
    Except PyErr (PyVal × Option IdentifierType) :=
  if ¬ valid_loader then
    .error (.typeError "entity_loader should be a sub class of OrmEntityLoader")
  else
    let inputs_provided :=
      [identifier.isSome, pk.isSome, uuid.isSome, label.isSome].count true
    if inputs_provided == 0 then
      .error (.valueError
        "one of the parameters 'identifier', pk', 'uuid' or 'label' has to be specified")
    else if inputs_provided > 1 then
      .error (.valueError
        "only one of parameters 'identifier', pk', 'uuid' or 'label' has to be specified")
    else
      match pk with
      | some v =>
        if ¬ v.isInt then .error (.typeError "a pk has to be an integer")
        else .ok (v, some IdentifierType.ID)
      | none =>
        match uuid with
        | some v =>
          if ¬ v.isStringType then .error (.typeError "uuid has to be a string type")
          else .ok (v, some IdentifierType.UUID)
        | none =>
          match label with
          | some v =>
            if ¬ v.isStringType then .error (.typeError "label has to be a string type")
            else .ok (v, some IdentifierType.LABEL)
          | none =>
            match identifier with
            | some v => .ok (.strV v.pyStr, none)
            | none => .ok (.strV PyVal.pyNone.pyStr, none)

/-- Python dictionary subscript `d[k]`: raises `KeyError` when the key is
missing. -/
def dictGet (d : List (String × PyVal)) (k : String) : Except PyErr PyVal :=
  match d.lookup k with
  | some v => .ok v
  | none => .error (.keyError k)

/-- A `try: ... except AttributeError: raise AttributeError(msg)` block:
only an `AttributeError` from the body is replaced; every other outcome
(including a `KeyError`) propagates untouched. -/
def catchAttributeError {α : Type} (r : Except PyErr α) (msg : String) :
    Except PyErr α :=
  match r with
  | .error (.attributeError _) => .error (.attributeError msg)
  | r => r

/-- The call `self._mpr.query(criteria=query, properties=collection_list)`
that `MatProjImporter.query` dispatches to (the network request itself is
external to the model). -/
structure MatProjQueryCall where
  criteria : PyVal
  properties : List String

namespace MatProjImporter

/-- `MatProjImporter._collection` (src/aiida/tools/dbimporters/plugins/matp.py:27). -/
def _collection : String := "structures"

/-- `MatProjImporter.query` (src/aiida/tools/dbimporters/plugins/matp.py:107-139).
Fetches `kwargs['query']` and `kwargs['collection']` inside
`try/except AttributeError` blocks, type-checks the query, substitutes
the class default `_collection` for a `None` collection, and dispatches
to `self.find` only for the literal collection `'structure'`.  `.ok`
carries the criteria and property list passed to the backend query. -/
def query (kwargs : List (String × PyVal)) : Except PyErr MatProjQueryCall :=
  match catchAttributeError (dictGet kwargs "query")
      "Make sure the supplied dictionary has `query` as a key. This should containg a dictionary with the right query needed." with
  | .error e => .error e
  | .ok q =>
    match catchAttributeError (dictGet kwargs "collection")
        "Make sure the supplied dictionary has `collection` as a key." with
    | .error e => .error e
    | .ok collection =>
      if ¬ q.isDict then
        .error (.typeError "The query argument should be a dictionary")
      else
        let collection :=
          match collection with
          | .pyNone => PyVal.strV _collection
          | c => c
        if collection.eqStr "structure" then
          .ok { criteria := q, properties := ["structure", "material_id", "cif"] }
        else
          .error (.valueError ("Unsupported collection: " ++ collection.pyStr))

/-- `MatProjImporter.setup_db` (src/aiida/tools/dbimporters/plugins/matp.py:39-54).
`env_PMG_MAPI_KEY` is the value of the `PMG_MAPI_KEY` environment
variable.  The model returns the final value of `self._api_key` at the
point `self._verify_api_key()` is entered (that method only issues a
network request and never assigns `_api_key`).  When the passed
`api_key` is `None` and the environment variable is set, the attribute
is first assigned the environment value and then unconditionally
overwritten by `self._api_key = api_key`. -/
def setup_db (kwargs : List (String × PyVal)) (env_PMG_MAPI_KEY : Option String) :
    Except PyErr PyVal :=
  match dictGet kwargs "api_key" with
  | .error e => .error e
  | .ok api_key =>
    match api_key with
    | .pyNone =>
      match env_PMG_MAPI_KEY with
      | some v =>
        let _ := PyVal.strV v
        .ok api_key
      | none =>
        .error (.valueError
          "API key not supplied and PMG_MAPI_KEY environment variable not set. Either pass it when initializing the class, or set the environment variable PMG_MAPI_KEY to your API key.")
    | _ => .ok api_key

end MatProjImporter

/-- Python 2 `int(s)` on a string: strips surrounding whitespace, accepts an
optional sign followed by at least one decimal digit, and otherwise
raises `ValueError("invalid literal for int() with base 10: '...'")`. -/
def pyInt (s : String) : Except PyErr Int :=
  let cs := ((s.data.dropWhile (·.isWhitespace)).reverse.dropWhile
    (·.isWhitespace)).reverse
  let signDigits : Bool × List Char :=
    match cs with
    | '-' :: rest => (true, rest)
    | '+' :: rest => (false, rest)
    | rest => (false, rest)
  let neg := signDigits.1
  let digits := signDigits.2
  if digits ≠ [] ∧ digits.all (·.isDigit) then
    let n : Nat := digits.foldl (fun acc c => acc * 10 + (c.toNat - 48)) 0
    .ok (if neg then -(n : Int) else (n : Int))
  else
    .error (.valueError ("invalid literal for int() with base 10: '" ++ s ++ "'"))

/-- Python `int(v)` for the values that pass the COD integer type check
(integers are returned as-is, strings are parsed). -/
def pyIntOf : PyVal → Except PyErr Int
  | .intV n => .ok n
  | .strV s => pyInt s
  | .unicodeV s => pyInt s
  | _ => .ok 0

/-- The numeric value of an integer or float, used by the volume clause. -/
def PyVal.asRat : PyVal → Rat
  | .intV n => (n : Rat)
  | .floatV q => q
  | _ => 0

namespace CodDbImporter

/-- The `ValueError` message for a non-integer, non-string COD keyword value. -/
def msgOnlyIntStr (kw : String) : String :=
  "incorrect value for keyword '" ++ kw ++ "' -- only integers and strings are accepted"

/-- The `ValueError` message for a non-string COD keyword value. -/
def msgOnlyStr (kw : String) : String :=
  "incorrect value for keyword '" ++ kw ++ "' -- only strings are accepted"

/-- The `ValueError` message for a non-numeric COD keyword value. -/
def msgOnlyIntFloat (kw : String) : String :=
  "incorrect value for keyword '" ++ kw ++ "' -- only integers and floats are accepted"

/-- `map(int, values)` evaluated left to right: the first failing
conversion raises. -/
def intAll : List PyVal → Except PyErr (List Int)
  | [] => .ok []
  | v :: vs =>
    match pyIntOf v with
    | .error e => .error e
    | .ok n =>
      match intAll vs with
      | .error e => .error e
      | .ok ns => .ok (n :: ns)

/-- Modelled from the spec: `CodDbImporter._int_clause`.  The implementation
file (aiida/tools/dbimporters/plugins/cod.py) is not in the excerpt; the
accepted value types and `ValueError` messages follow the spec's
error-handling description and the expectations asserted in
`TestCodDbImporter.test_datatype_checks`
(src/aiida/djsite/db/subtests/dbimporters.py): integers and strings pass
the type check, every value is then converted with `int()` (so a
non-numeric string raises the `int()` `ValueError`), and the SQL
fragment is an `IN` list. -/
def _int_clause (key kw : String) (values : List PyVal) : Except PyErr String :=
  if values.all (fun e => e.isInt || e.isStringType) then
    match intAll values with
    | .ok ns => .ok (key ++ " IN (" ++ String.intercalate ", " (ns.map toString) ++ ")")
    | .error e => .error e
  else
    .error (.valueError (msgOnlyIntStr kw))

/-- Modelled from the spec: `CodDbImporter._str_exact_clause` (not in the
excerpt; behaviour per the spec and
`TestCodDbImporter.test_datatype_checks`): integers and strings are
accepted and quoted into an `IN` list, anything else raises the
integers-and-strings `ValueError`. -/
def _str_exact_clause (key kw : String) (values : List PyVal) : Except PyErr String :=
  if values.all (fun e => e.isInt || e.isStringType) then
    .ok (key ++ " IN (" ++
      String.intercalate ", " (values.map (fun v => "'" ++ v.pyStr ++ "'")) ++ ")")
  else
    .error (.valueError (msgOnlyIntStr kw))

/-- Modelled from the spec: `CodDbImporter._formula_clause` (not in the
excerpt; behaviour per the spec and
`TestCodDbImporter.test_datatype_checks`): only Python 2 byte strings
are accepted (a unicode string is rejected), anything else raises the
only-strings `ValueError`. -/
def _formula_clause (key kw : String) (values : List PyVal) : Except PyErr String :=
  if values.all (fun e => e.isStr) then
    .ok (key ++ " IN (" ++
      String.intercalate ", " (values.map (fun v => "'- " ++ v.pyStr ++ " -'")) ++ ")")
  else
    .error (.valueError (msgOnlyStr kw))

/-- Modelled from the spec: `CodDbImporter._str_fuzzy_clause` (not in the
excerpt; behaviour per the spec and
`TestCodDbImporter.test_datatype_checks`): integers and strings are
accepted and turned into `LIKE '%...%'` alternatives. -/
def _str_fuzzy_clause (key kw : String) (values : List PyVal) : Except PyErr String :=
  if values.all (fun e => e.isInt || e.isStringType) then
    .ok (String.intercalate " OR "
      (values.map (fun v => key ++ " LIKE '%" ++ v.pyStr ++ "%'")))
  else
    .error (.valueError (msgOnlyIntStr kw))

/-- Modelled from the spec: `CodDbImporter._composition_clause` (not in the
excerpt; behaviour per the spec and
`TestCodDbImporter.test_datatype_checks`): byte and unicode strings are
accepted and turned into `REGEXP` conjuncts, anything else raises the
only-strings `ValueError`. -/
def _composition_clause (key kw : String) (values : List PyVal) : Except PyErr String :=
  if values.all (fun e => e.isStringType) then
    .ok (String.intercalate " AND "
      (values.map (fun v => key ++ " REGEXP ' " ++ v.pyStr ++ "[0-9 ]'")))
  else
    .error (.valueError (msgOnlyStr kw))

/-- Modelled from the spec: `CodDbImporter._volume_clause` (not in the
excerpt; behaviour per the spec and
`TestCodDbImporter.test_datatype_checks`): integers and floats are
accepted and turned into `BETWEEN` ranges around the value, anything
else raises the integers-and-floats `ValueError`. -/
def _volume_clause (key kw : String) (values : List PyVal) : Except PyErr String :=
  if values.all (fun e => e.isInt || e.isFloat) then
    .ok (String.intercalate " OR " (values.map (fun v =>
      key ++ " BETWEEN " ++ toString (v.asRat - 1 / 1000) ++ " AND " ++
        toString (v.asRat + 1 / 1000))))
  else
    .error (.valueError (msgOnlyIntFloat kw))

end CodDbImporter

/-- The backend call dispatched to by `load_workflow`. -/
inductive WorkflowCall where
  | get_subclass_from_pk (pk : Int)
  | get_subclass_from_uuid (uuid : String)
deriving DecidableEq

/-- `aiida.orm.utils.load_workflow` (src/aiida/orm/utils/__init__.py:177-223).
Validates that exactly one of `wf_id`/`pk`/`uuid` was supplied, then
dispatches to `Workflow.get_subclass_from_pk` for integers and
`Workflow.get_subclass_from_uuid` for strings (a `uuid.UUID` instance is
first converted by `str()`); every malformed input raises `ValueError`. -/
def load_workflow (wf_id pk uuid : Option PyVal) : Except PyErr WorkflowCall :=
  let noneCount :=
    (if wf_id.isNone then 1 else 0) + (if pk.isNone then 1 else 0) +
      (if uuid.isNone then 1 else 0)
  if noneCount == 3 then
    .error (.valueError "one of the parameters 'wf_id', 'pk' and 'uuid' has to be supplied")
  else if noneCount < 2 then
    .error (.valueError "only one of parameters 'wf_id', 'pk' and 'uuid' has to be supplied")
  else
    match wf_id with
    | some w =>
      let w' := if w.truthy && w.isUuid then PyVal.strV w.pyStr else w
      if w'.isStringType then .ok (.get_subclass_from_uuid w'.pyStr)
      else if w'.isInt then .ok (.get_subclass_from_pk w'.asInt)
      else
        .error (.valueError
          ("'wf_id' has to be either string, unicode, integer or UUID instance, " ++
            w'.pyType ++ " given"))
    | none =>
      match pk with
      | some p =>
        if p.isInt then .ok (.get_subclass_from_pk p.asInt)
        else .error (.valueError "'pk' has to be an integer")
      | none =>
        match uuid with
        | some u =>
          let u' := if u.truthy && u.isUuid then PyVal.strV u.pyStr else u
          if u'.isStringType then .ok (.get_subclass_from_uuid u'.pyStr)
          else .error (.valueError "'uuid' has to be a string, unicode or a UUID instance")
        | none =>
          .error (.valueError "'uuid' has to be a string, unicode or a UUID instance")

/-- Modelled from the spec: the current archive schema version
`EXPORT_VERSION` of `aiida.tools.importexport` (implementation not in
the excerpt).  Versions are monotonically numbered `0.k` and modelled by
their minor number `k`; the tests name `export_v0.6_simple.aiida` the
penultimate archive, so the current version is `0.7`. -/
def EXPORT_VERSION : Nat := 7

/-- Modelled from the spec: the JSON metadata of an archive, including its
`export_version` field (minor number of version `0.k`). -/
structure ArchiveMeta where
  export_version : Nat
deriving DecidableEq

/-- Modelled from the spec: an archive is JSON metadata plus serialized
node/entity data. -/
structure Archive where
  metadata : ArchiveMeta
  data : List (String × String)
deriving DecidableEq

/-- The container formats accepted by the `-F` (`--archive-format`) option. -/
inductive ArchiveFormat where
  | zip
  | zipUncompressed
  | targz
deriving DecidableEq

/-- Modelled from the spec: an archive file on disk, a zip or tar.gz
container holding an archive. -/
structure ArchiveFile where
  format : ArchiveFormat
  archive : Archive
deriving DecidableEq

/-- A zip container test (`zipfile.ZipFile(...).testzip() is None`). -/
def ArchiveFile.isValidZip (f : ArchiveFile) : Bool :=
  f.format == ArchiveFormat.zip || f.format == ArchiveFormat.zipUncompressed

/-- A tar.gz container test (`tarfile.is_tarfile(...)`). -/
def ArchiveFile.isValidTarGz (f : ArchiveFile) : Bool :=
  f.format == ArchiveFormat.targz

/-- Modelled from the spec: the single-version migration `0.k → 0.(k+1)`
of the archive schema (migration logic not in the excerpt; the spec says
only that versions are monotonically numbered and migrations chain). -/
def migrateStep (a : Archive) : Archive :=
  { a with metadata := { export_version := a.metadata.export_version + 1 } }

/-- `n` successive single-version migrations, applied in order through
every intermediate schema version. -/
def migrateChain : Archive → Nat → Archive
  | a, 0 => a
  | a, n + 1 => migrateChain (migrateStep a) n

/-- Whether `verdi archive migrate` writes a separate output file or
overwrites the input (`-i`, `--in-place`). -/
inductive MigrateMode where
  | toOutputFile
  | inPlace
deriving DecidableEq

/-- Modelled from the spec: the `verdi archive migrate` command
(implementation not in the excerpt).  Migrates the input archive to the
target version (the latest, `EXPORT_VERSION`, when no `--version` is
given) by chaining single-version migrations, and writes the result in
the requested container format either to the output file or in place;
the written file is the same in both modes. -/
def migrate_cmd (input : ArchiveFile) (target : Option Nat) (fmt : ArchiveFormat)
    (mode : MigrateMode) : Except String ArchiveFile :=
  let tgt := target.getD EXPORT_VERSION
  if EXPORT_VERSION < tgt then
    .error "unknown target version"
  else if tgt < input.archive.metadata.export_version then
    .error "cannot migrate to an older version"
  else
    match mode with
    | _ =>
      .ok { format := fmt,
            archive := migrateChain input.archive
              (tgt - input.archive.metadata.export_version) }

/-- Modelled from the spec: parsing a raw archive file.  A zip container
begins with the magic bytes `PK` (80, 75); the model reads the
`export_version` metadata from the following byte.  Anything else — in
particular an empty file — fails to parse. -/
def parseArchive (bytes : List Nat) : Option Archive :=
  match bytes with
  | 80 :: 75 :: v :: rest =>
    some { metadata := { export_version := v },
           data := [("content", toString rest.length)] }
  | _ => none

/-- Modelled from the spec: the `verdi archive inspect` command
(implementation not in the excerpt).  Reports metadata of a parseable
archive and fails with the message `corrupt archive` otherwise. -/
def inspect_cmd (bytes : List Nat) : Except String String :=
  match parseArchive bytes with
  | some a => .ok ("version 0." ++ toString a.metadata.export_version)
  | none => .error "corrupt archive"

/-- The version reached by a migration chain: each step raises the schema
version by exactly one. -/
theorem migrateChain_export_version (n : Nat) :
    ∀ a : Archive,
      (migrateChain a n).metadata.export_version =
        a.metadata.export_version + n := by
  induction n with
  | zero => intro a; simp [migrateChain]
  | succ m ih =>
    intro a
    have h := ih (migrateStep a)
    show (migrateChain (migrateStep a) m).metadata.export_version = _
    rw [h]
    simp [migrateStep]
    omega

/-- Migration chains compose: migrating `m + n` steps is migrating `m`
steps and then `n` more, so the chain passes through every intermediate
version. -/
theorem migrateChain_add (m n : Nat) :
    ∀ a : Archive, migrateChain a (m + n) = migrateChain (migrateChain a m) n := by
  induction m with
  | zero => intro a; simp [migrateChain]
  | succ k ih =>
    intro a
    have h1 : k + 1 + n = k + n + 1 := by omega
    rw [h1]
    exact ih (migrateStep a)

/-- C1: with a valid entity loader, `load_entity` raises `ValueError` when
zero or at least two of `identifier`/`pk`/`uuid`/`label` are non-None;
an `.error` result means the backend loader was never consulted (the
model's only `.ok` constructor is the forwarded backend call). -/
theorem load_entity_zero_or_many_raises_value_error
    (identifier pk uuid label : Option PyVal)
    (h : [identifier.isSome, pk.isSome, uuid.isSome, label.isSome].count true ≠ 1) :
    ∃ msg, load_entity true identifier pk uuid label = .error (.valueError msg) := by
  cases identifier <;> cases pk <;> cases uuid <;> cases label <;>
    simp_all [load_entity, List.count] <;>
    exact ⟨_, rfl⟩

/-- Witness for C1: the all-None call and a two-identifier call both raise
`ValueError`. -/
theorem load_entity_zero_or_many_raises_value_error_witness :
    (∃ msg, load_entity true none none none none = .error (.valueError msg)) ∧
    (∃ msg, load_entity true none (some (PyVal.intV 1)) none
        (some (PyVal.strV "x")) = .error (.valueError msg)) :=
  ⟨load_entity_zero_or_many_raises_value_error none none none none (by decide),
   load_entity_zero_or_many_raises_value_error none (some (PyVal.intV 1)) none
     (some (PyVal.strV "x")) (by decide)⟩

/-- C2: with exactly one identifier keyword supplied, `load_entity` raises
`TypeError` when `pk` is not an integer, or `uuid`/`label` is not a
string; with the correct type it forwards to the backend loader with the
corresponding `IdentifierType` (`ID`/`UUID`/`LABEL`; a bare `identifier`
is forwarded as `str(identifier)` with no type tag). -/
theorem load_entity_single_identifier_type_dispatch (v : PyVal) :
    (v.isInt = false →
      load_entity true none (some v) none none =
        .error (.typeError "a pk has to be an integer")) ∧
    (v.isInt = true →
      load_entity true none (some v) none none = .ok (v, some IdentifierType.ID)) ∧
    (v.isStringType = false →
      load_entity true none none (some v) none =
        .error (.typeError "uuid has to be a string type")) ∧
    (v.isStringType = true →
      load_entity true none none (some v) none = .ok (v, some IdentifierType.UUID)) ∧
    (v.isStringType = false →
      load_entity true none none none (some v) =
        .error (.typeError "label has to be a string type")) ∧
    (v.isStringType = true →
      load_entity true none none none (some v) = .ok (v, some IdentifierType.LABEL)) ∧
    load_entity true (some v) none none none = .ok (.strV v.pyStr, none) := by
  refine ⟨fun h => ?_, fun h => ?_, fun h => ?_, fun h => ?_, fun h => ?_, fun h => ?_, ?_⟩ <;>
    simp_all [load_entity, List.count]

/-- Witness for C2: a float `pk` raises `TypeError`, an integer `pk` and a
string `uuid` reach the backend loader with the right `IdentifierType`. -/
theorem load_entity_single_identifier_type_dispatch_witness :
    load_entity true none (some (PyVal.floatV (1 / 3))) none none =
      .error (.typeError "a pk has to be an integer") ∧
    load_entity true none (some (PyVal.intV 10)) none none =
      .ok (PyVal.intV 10, some IdentifierType.ID) ∧
    load_entity true none none (some (PyVal.strV "some-uuid")) none =
      .ok (PyVal.strV "some-uuid", some IdentifierType.UUID) :=
  ⟨(load_entity_single_identifier_type_dispatch (PyVal.floatV (1 / 3))).1 rfl,
   (load_entity_single_identifier_type_dispatch (PyVal.intV 10)).2.1 rfl,
   (load_entity_single_identifier_type_dispatch (PyVal.strV "some-uuid")).2.2.2.1 rfl⟩

/-- C7: `load_workflow` raises `ValueError` when zero or at least two of
`wf_id`/`pk`/`uuid` are supplied; a wrongly-typed single parameter raises
`ValueError` (not `TypeError`); otherwise integers dispatch to
`Workflow.get_subclass_from_pk` and strings/UUID instances to
`Workflow.get_subclass_from_uuid`. -/
theorem load_workflow_validation_and_dispatch
    (wf_id pk uuid : Option PyVal) (v : PyVal) (s : String) :
    ((wf_id = none ∧ pk = none ∧ uuid = none) →
      ∃ m, load_workflow wf_id pk uuid = .error (.valueError m)) ∧
    (((wf_id ≠ none ∧ pk ≠ none) ∨ (wf_id ≠ none ∧ uuid ≠ none) ∨
        (pk ≠ none ∧ uuid ≠ none)) →
      ∃ m, load_workflow wf_id pk uuid = .error (.valueError m)) ∧
    (v.isInt = false →
      load_workflow none (some v) none = .error (.valueError "'pk' has to be an integer")) ∧
    (v.isStringType = false → v.isUuid = false →
      load_workflow none none (some v) =
        .error (.valueError "'uuid' has to be a string, unicode or a UUID instance")) ∧
    (v.isStringType = false → v.isInt = false → v.isUuid = false →
      ∃ m, load_workflow (some v) none none = .error (.valueError m)) ∧
    (v.isInt = true →
      load_workflow (some v) none none = .ok (.get_subclass_from_pk v.asInt)) ∧
    (v.isStringType = true →
      load_workflow (some v) none none = .ok (.get_subclass_from_uuid v.pyStr)) ∧
    (load_workflow (some (PyVal.uuidV s)) none none = .ok (.get_subclass_from_uuid s)) ∧
    (v.isInt = true →
      load_workflow none (some v) none = .ok (.get_subclass_from_pk v.asInt)) ∧
    (v.isStringType = true →
      load_workflow none none (some v) = .ok (.get_subclass_from_uuid v.pyStr)) ∧
    (load_workflow none none (some (PyVal.uuidV s)) = .ok (.get_subclass_from_uuid s)) := by
  refine ⟨fun h => ?_, fun h => ?_, fun h => ?_, fun h h2 => ?_, fun h h2 h3 => ?_,
    fun h => ?_, fun h => ?_, ?_, fun h => ?_, fun h => ?_, ?_⟩
  · obtain ⟨h1, h2, h3⟩ := h
    subst h1; subst h2; subst h3
    exact ⟨_, rfl⟩
  · cases wf_id <;> cases pk <;> cases uuid <;> simp_all [load_workflow] <;>
      exact ⟨_, rfl⟩
  · cases v <;> simp_all [load_workflow, PyVal.isInt, PyVal.truthy, PyVal.isUuid,
      PyVal.isStringType]
  · cases v <;> simp_all [load_workflow, PyVal.isUuid, PyVal.truthy,
      PyVal.isStringType]
  · cases v <;> simp_all [load_workflow, PyVal.isInt, PyVal.isUuid, PyVal.truthy,
      PyVal.isStringType] <;> exact ⟨_, rfl⟩
  · cases v <;> simp_all [load_workflow, PyVal.isInt, PyVal.truthy, PyVal.isUuid,
      PyVal.isStringType, PyVal.asInt]
  · cases v <;> simp_all [load_workflow, PyVal.isStringType, PyVal.truthy,
      PyVal.isUuid, PyVal.pyStr]
  · simp [load_workflow, PyVal.truthy, PyVal.isUuid, PyVal.isStringType, PyVal.pyStr]
  · cases v <;> simp_all [load_workflow, PyVal.isInt, PyVal.asInt]
  · cases v <;> simp_all [load_workflow, PyVal.isStringType, PyVal.truthy,
      PyVal.isUuid, PyVal.pyStr]
  · simp [load_workflow, PyVal.truthy, PyVal.isUuid, PyVal.isStringType, PyVal.pyStr]

/-- Witness for C7: no parameter raises `ValueError`; a float `wf_id`
raises `ValueError`; an integer `wf_id` dispatches to
`get_subclass_from_pk`; a UUID-instance `uuid` dispatches to
`get_subclass_from_uuid`. -/
theorem load_workflow_validation_and_dispatch_witness :
    (∃ m, load_workflow none none none = .error (.valueError m)) ∧
    (∃ m, load_workflow (some (PyVal.floatV (1 / 2))) none none =
      .error (.valueError m)) ∧
    load_workflow (some (PyVal.intV 7)) none none =
      .ok (.get_subclass_from_pk 7) ∧
    load_workflow none none (some (PyVal.uuidV "abc-def")) =
      .ok (.get_subclass_from_uuid "abc-def") :=
  ⟨(load_workflow_validation_and_dispatch none none none (PyVal.intV 0) "").1
      ⟨rfl, rfl, rfl⟩,
   (load_workflow_validation_and_dispatch (some (PyVal.floatV (1 / 2))) none none
      (PyVal.floatV (1 / 2)) "").2.2.2.2.1 rfl rfl rfl,
   (load_workflow_validation_and_dispatch (some (PyVal.intV 7)) none none
      (PyVal.intV 7) "").2.2.2.2.2.1 rfl,
   (load_workflow_validation_and_dispatch none none (some (PyVal.uuidV "abc-def"))
      (PyVal.intV 0) "abc-def").2.2.2.2.2.2.2.2.2.2⟩

/-- C8: `MatProjImporter.query` without a `query` (or `collection`) key in
the kwargs raises `KeyError`, and no call ever raises `AttributeError`:
the `except AttributeError` handlers are unreachable because dictionary
subscripting raises `KeyError`. -/
theorem matproj_query_missing_key_raises_keyerror
    (kwargs : List (String × PyVal)) :
    (kwargs.lookup "query" = none →
      MatProjImporter.query kwargs = .error (.keyError "query")) ∧
    (∀ q, kwargs.lookup "query" = some q → kwargs.lookup "collection" = none →
      MatProjImporter.query kwargs = .error (.keyError "collection")) ∧
    (∀ m, MatProjImporter.query kwargs ≠ .error (.attributeError m)) := by
  refine ⟨fun h => ?_, fun q hq hc => ?_, fun m => ?_⟩
  · simp [MatProjImporter.query, dictGet, catchAttributeError, h]
  · simp [MatProjImporter.query, dictGet, catchAttributeError, hq, hc]
  · unfold MatProjImporter.query dictGet catchAttributeError
    cases kwargs.lookup "query" <;> cases kwargs.lookup "collection" <;> simp
    split
    · simp
    · split <;> simp

/-- Witness for C8: omitting `query`, and omitting only `collection`, both
raise `KeyError` on the missing key. -/
theorem matproj_query_missing_key_raises_keyerror_witness :
    MatProjImporter.query [] = .error (.keyError "query") ∧
    MatProjImporter.query [("query", PyVal.dictV [])] =
      .error (.keyError "collection") ∧
    MatProjImporter.query [] ≠ .error (.attributeError "x") :=
  ⟨(matproj_query_missing_key_raises_keyerror []).1 rfl,
   (matproj_query_missing_key_raises_keyerror [("query", PyVal.dictV [])]).2.1
     (PyVal.dictV []) rfl rfl,
   (matproj_query_missing_key_raises_keyerror []).2.2 "x"⟩

/-- Counterexample for C9: the claim also covers *omitting* the collection
key, but omitting it raises `KeyError('collection')`, not
`ValueError('Unsupported collection: structures')`. -/
theorem matproj_query_omitted_collection_counterexample :
    MatProjImporter.query [("query", PyVal.dictV [])] =
      .error (.keyError "collection") ∧
    MatProjImporter.query [("query", PyVal.dictV [])] ≠
      .error (.valueError "Unsupported collection: structures") := by
  constructor
  · rfl
  · intro h
    rw [show MatProjImporter.query [("query", PyVal.dictV [])] =
        .error (.keyError "collection") from rfl] at h
    simp at h

/-- C9 (amended): when the kwargs hold a dict-valued `query` and an
explicitly `None` collection, `MatProjImporter.query` always raises
`ValueError('Unsupported collection: structures')`: the `None` default is
replaced by the class attribute `_collection = 'structures'`, but the
dispatch accepts only the literal `'structure'`. -/
theorem matproj_query_none_collection_unsupported
    (kwargs : List (String × PyVal)) (q : PyVal)
    (hq : kwargs.lookup "query" = some q) (hdict : q.isDict = true)
    (hc : kwargs.lookup "collection" = some PyVal.pyNone) :
    MatProjImporter.query kwargs =
      .error (.valueError "Unsupported collection: structures") := by
  simp [MatProjImporter.query, dictGet, catchAttributeError, hq, hc, hdict,
    MatProjImporter._collection, PyVal.eqStr, PyVal.pyStr]

/-- Witness for C9: a concrete call with a dict query and `collection=None`
raises the unsupported-collection `ValueError`. -/
theorem matproj_query_none_collection_unsupported_witness :
    MatProjImporter.query [("query", PyVal.dictV []), ("collection", PyVal.pyNone)] =
      .error (.valueError "Unsupported collection: structures") :=
  matproj_query_none_collection_unsupported
    [("query", PyVal.dictV []), ("collection", PyVal.pyNone)]
    (PyVal.dictV []) rfl rfl rfl

/-- C10: after any `setup_db` call that does not raise, `self._api_key`
equals the `api_key` argument that was passed; in particular, with
`api_key=None` and the `PMG_MAPI_KEY` environment variable set, the
environment value is immediately overwritten and `_api_key` is left as
`None`. -/
theorem matproj_setup_db_overwrites_env_fallback
    (kwargs : List (String × PyVal)) (env : Option String) (v : PyVal)
    (k : String) :
    (MatProjImporter.setup_db kwargs env = .ok v →
      kwargs.lookup "api_key" = some v) ∧
    MatProjImporter.setup_db [("api_key", PyVal.pyNone)] (some k) =
      .ok PyVal.pyNone := by
  constructor
  · intro h
    unfold MatProjImporter.setup_db dictGet at h
    cases hl : kwargs.lookup "api_key" <;> rw [hl] at h
    · simp at h
    · rename_i a
      cases a <;> simp_all <;> cases env <;> simp_all
  · rfl

/-- Witness for C10: a string key is returned unchanged, and the
`None`-plus-environment call ends with `_api_key = None`. -/
theorem matproj_setup_db_overwrites_env_fallback_witness :
    ([("api_key", PyVal.strV "abc")].lookup "api_key" = some (PyVal.strV "abc")) ∧
    MatProjImporter.setup_db [("api_key", PyVal.pyNone)] (some "SECRET") =
      .ok PyVal.pyNone :=
  ⟨(matproj_setup_db_overwrites_env_fallback [("api_key", PyVal.strV "abc")] none
      (PyVal.strV "abc") "SECRET").1 rfl,
   (matproj_setup_db_overwrites_env_fallback [] none PyVal.pyNone "SECRET").2⟩

/-- Counterexample for C5: strings are an accepted type for `_int_clause`
(the numeric string `'10'` succeeds), yet the accepted-type value
`'text'` still raises a `ValueError` — the `int()` conversion error —
so "values of accepted types raise no ValueError" is false. -/
theorem cod_int_clause_accepted_type_counterexample :
    (CodDbImporter._int_clause "test" "test" [PyVal.strV "10"]).isOk = true ∧
    CodDbImporter._int_clause "test" "test" [PyVal.strV "text"] =
      .error (.valueError "invalid literal for int() with base 10: 'text'") := by
  constructor
  · rfl
  · rfl

/-- C5 (amended): each COD clause builder raises its clause-specific
`ValueError` for every value of a type it does not accept — in
particular `_int_clause` raises the integers-and-strings message for a
float and `_volume_clause` the integers-and-floats message for a string
— and values of accepted types pass the type check; however,
`_int_clause` additionally converts each value with `int()`, so an
accepted string succeeds exactly when it parses as a decimal integer. -/
theorem cod_clause_type_validation (n : Int) (s : String) (q : Rat)
    (xs : List PyVal) (t : String) :
    ((CodDbImporter._int_clause "test" t [PyVal.intV n]).isOk = true) ∧
    ((CodDbImporter._int_clause "test" t [PyVal.strV s]).isOk = (pyInt s).isOk) ∧
    (CodDbImporter._int_clause "test" t [PyVal.floatV q] =
      .error (.valueError (CodDbImporter.msgOnlyIntStr t))) ∧
    (CodDbImporter._int_clause "test" t [PyVal.listV xs] =
      .error (.valueError (CodDbImporter.msgOnlyIntStr t))) ∧
    ((CodDbImporter._str_exact_clause "test" t [PyVal.intV n]).isOk = true) ∧
    ((CodDbImporter._str_exact_clause "test" t [PyVal.strV s]).isOk = true) ∧
    ((CodDbImporter._str_exact_clause "test" t [PyVal.unicodeV s]).isOk = true) ∧
    (CodDbImporter._str_exact_clause "test" t [PyVal.floatV q] =
      .error (.valueError (CodDbImporter.msgOnlyIntStr t))) ∧
    (CodDbImporter._str_exact_clause "test" t [PyVal.listV xs] =
      .error (.valueError (CodDbImporter.msgOnlyIntStr t))) ∧
    ((CodDbImporter._formula_clause "test" t [PyVal.strV s]).isOk = true) ∧
    (CodDbImporter._formula_clause "test" t [PyVal.intV n] =
      .error (.valueError (CodDbImporter.msgOnlyStr t))) ∧
    (CodDbImporter._formula_clause "test" t [PyVal.unicodeV s] =
      .error (.valueError (CodDbImporter.msgOnlyStr t))) ∧
    (CodDbImporter._formula_clause "test" t [PyVal.floatV q] =
      .error (.valueError (CodDbImporter.msgOnlyStr t))) ∧
    ((CodDbImporter._str_fuzzy_clause "test" t [PyVal.intV n]).isOk = true) ∧
    ((CodDbImporter._str_fuzzy_clause "test" t [PyVal.strV s]).isOk = true) ∧
    (CodDbImporter._str_fuzzy_clause "test" t [PyVal.floatV q] =
      .error (.valueError (CodDbImporter.msgOnlyIntStr t))) ∧
    (CodDbImporter._str_fuzzy_clause "test" t [PyVal.listV xs] =
      .error (.valueError (CodDbImporter.msgOnlyIntStr t))) ∧
    ((CodDbImporter._composition_clause "test" t [PyVal.strV s]).isOk = true) ∧
    ((CodDbImporter._composition_clause "test" t [PyVal.unicodeV s]).isOk = true) ∧
    (CodDbImporter._composition_clause "test" t [PyVal.intV n] =
      .error (.valueError (CodDbImporter.msgOnlyStr t))) ∧
    (CodDbImporter._composition_clause "test" t [PyVal.floatV q] =
      .error (.valueError (CodDbImporter.msgOnlyStr t))) ∧
    ((CodDbImporter._volume_clause "test" t [PyVal.intV n]).isOk = true) ∧
    ((CodDbImporter._volume_clause "test" t [PyVal.floatV q]).isOk = true) ∧
    (CodDbImporter._volume_clause "test" t [PyVal.strV s] =
      .error (.valueError (CodDbImporter.msgOnlyIntFloat t))) ∧
    (CodDbImporter._volume_clause "test" t [PyVal.unicodeV s] =
      .error (.valueError (CodDbImporter.msgOnlyIntFloat t))) ∧
    (CodDbImporter._volume_clause "test" t [PyVal.listV xs] =
      .error (.valueError (CodDbImporter.msgOnlyIntFloat t))) := by
  refine ⟨?_, ?_, ?_, ?_, ?_, ?_, ?_, ?_, ?_, ?_, ?_, ?_, ?_, ?_, ?_, ?_, ?_, ?_,
    ?_, ?_, ?_, ?_, ?_, ?_, ?_, ?_⟩
  all_goals try
    (simp [CodDbImporter._int_clause, CodDbImporter._str_exact_clause,
      CodDbImporter._formula_clause, CodDbImporter._str_fuzzy_clause,
      CodDbImporter._composition_clause, CodDbImporter._volume_clause,
      CodDbImporter.intAll, PyVal.isInt, PyVal.isStr, PyVal.isStringType,
      PyVal.isFloat, pyIntOf, Except.isOk, Except.toBool]; done)
  all_goals cases h : pyInt s <;>
    simp [CodDbImporter._int_clause, CodDbImporter.intAll, PyVal.isStringType,
      pyIntOf, h, Except.isOk, Except.toBool]

/-- C3: migrating an archive of an older schema version to any valid target
version `v` succeeds, produces a container that is a valid zip (or
tar.gz when that format is selected), and the resulting metadata
`export_version` equals `v`; the same file is produced whether writing
to a separate output file or migrating in place (the statement holds
for every `MigrateMode`). -/
theorem migrate_cmd_version_specific
    (a : ArchiveFile) (v : Nat) (fmt : ArchiveFormat) (mode : MigrateMode)
    (hold : a.archive.metadata.export_version < v) (hv : v ≤ EXPORT_VERSION) :
    ∃ out, migrate_cmd a (some v) fmt mode = .ok out ∧
      out.archive.metadata.export_version = v ∧
      out.format = fmt ∧
      (fmt = ArchiveFormat.targz → out.isValidTarGz = true) ∧
      (fmt ≠ ArchiveFormat.targz → out.isValidZip = true) := by
  refine ⟨{ format := fmt,
            archive := migrateChain a.archive
              (v - a.archive.metadata.export_version) }, ?_, ?_, rfl, ?_, ?_⟩
  · unfold migrate_cmd
    simp only [Option.getD_some]
    rw [if_neg (by omega), if_neg (by omega)]
  · rw [migrateChain_export_version]
    omega
  · intro h
    subst h
    rfl
  · intro h
    cases fmt <;> simp_all [ArchiveFile.isValidZip]

/-- Witness for C3: a version-0.1 zip archive migrated to version 0.2. -/
theorem migrate_cmd_version_specific_witness :
    ∃ out, migrate_cmd ⟨ArchiveFormat.zip, ⟨⟨1⟩, []⟩⟩ (some 2) ArchiveFormat.zip
        MigrateMode.toOutputFile = .ok out ∧
      out.archive.metadata.export_version = 2 ∧
      out.format = ArchiveFormat.zip ∧
      (ArchiveFormat.zip = ArchiveFormat.targz → out.isValidTarGz = true) ∧
      (ArchiveFormat.zip ≠ ArchiveFormat.targz → out.isValidZip = true) :=
  migrate_cmd_version_specific ⟨ArchiveFormat.zip, ⟨⟨1⟩, []⟩⟩ 2 ArchiveFormat.zip
    MigrateMode.toOutputFile (by decide) (by decide)

/-- C4: migrating an archive whose schema version is strictly older than
the current `EXPORT_VERSION`, without a target version, succeeds and
produces a valid zip archive at the latest version, reached by chaining
single-version migrations through every intermediate version starting
from 0.1 (the chain decomposes after any number of steps). -/
theorem migrate_cmd_default_reaches_latest
    (a : ArchiveFile) (mode : MigrateMode)
    (h1 : 1 ≤ a.archive.metadata.export_version)
    (h2 : a.archive.metadata.export_version < EXPORT_VERSION) :
    ∃ out, migrate_cmd a none ArchiveFormat.zip mode = .ok out ∧
      out.archive.metadata.export_version = EXPORT_VERSION ∧
      out.isValidZip = true ∧
      out.archive = migrateChain a.archive
        (EXPORT_VERSION - a.archive.metadata.export_version) ∧
      (∀ m n, migrateChain a.archive (m + n) =
        migrateChain (migrateChain a.archive m) n) := by
  refine ⟨{ format := ArchiveFormat.zip,
            archive := migrateChain a.archive
              (EXPORT_VERSION - a.archive.metadata.export_version) },
    ?_, ?_, rfl, rfl, ?_⟩
  · unfold migrate_cmd
    simp only [Option.getD_none]
    rw [if_neg (by omega), if_neg (by omega)]
  · rw [migrateChain_export_version]
    omega
  · intro m n
    exact migrateChain_add m n a.archive

/-- Witness for C4: a version-0.1 zip archive migrated with no target
reaches the current version 0.7. -/
theorem migrate_cmd_default_reaches_latest_witness :
    ∃ out, migrate_cmd ⟨ArchiveFormat.zip, ⟨⟨1⟩, []⟩⟩ none ArchiveFormat.zip
        MigrateMode.inPlace = .ok out ∧
      out.archive.metadata.export_version = EXPORT_VERSION ∧
      out.isValidZip = true ∧
      out.archive = migrateChain (⟨⟨1⟩, []⟩ : Archive) (EXPORT_VERSION - 1) ∧
      (∀ m n, migrateChain (⟨⟨1⟩, []⟩ : Archive) (m + n) =
        migrateChain (migrateChain (⟨⟨1⟩, []⟩ : Archive) m) n) :=
  migrate_cmd_default_reaches_latest ⟨ArchiveFormat.zip, ⟨⟨1⟩, []⟩⟩
    MigrateMode.inPlace (by decide) (by decide)

/-- C6: `verdi archive inspect` on a corrupt archive — here the empty file
— does not succeed and its output is the message `corrupt archive`. -/
theorem inspect_cmd_empty_archive_corrupt :
    inspect_cmd [] = .error "corrupt archive" ∧ (inspect_cmd []).isOk = false := by
  constructor <;> rfl

end Aiida
